import Mathlib

/-!
Shallow embedding of `backend_steam_network.py` (GOG Galaxy Steam-network
backend): the authentication controller, the stored-credential resume race,
the periodic owned-games forwarding loop, and the feature query methods.

External collaborator modules (galaxy API types, the websocket client's
`UserActionRequired` enumeration, the `StartUri`/`EndUri` descriptor
constants, the readiness-gated caches) are not part of the repository
snapshot; they are embedded as opaque enumerations / oracle parameters,
faithful to how `backend_steam_network.py` consumes them.
-/

namespace SteamNet

/-- Error classes from `galaxy.api.errors` used by the backend. -/
inductive GalaxyError
  | AuthenticationRequired
  | UnknownBackendResponse
  | UnknownError (msg : String)
  | BackendTimeout
deriving DecidableEq, Repr

/-- Python-level failures a handler can raise in addition to galaxy errors:
subscripting `None` (`self._auth_data[1]` with no pending login) raises
`TypeError`; `distutils.util.strtobool` raises `ValueError` on an
unrecognised string and `AttributeError` when handed `None`. -/
inductive PErr
  | galaxy (e : GalaxyError)
  | typeError
  | valueError
  | attributeError
deriving DecidableEq, Repr

/-- Start-URI descriptor constants from `steam_network.authentication`
(module outside the snapshot; the backend only passes these tokens around,
so they are embedded as an enumeration of distinct constants). -/
inductive StartUri
  | LOGIN
  | LOGIN_FAILED
  | TWO_FACTOR_MAIL
  | TWO_FACTOR_MOBILE
  | TWO_FACTOR_MAIL_FAILED
  | TWO_FACTOR_MOBILE_FAILED
  | PP_PROMPT__PROFILE_IS_NOT_PUBLIC
  | PP_PROMPT__NOT_PUBLIC_GAME_DETAILS_OR_USER_HAS_NO_GAMES
  | PP_PROMPT__UNKNOWN_ERROR
deriving DecidableEq, Repr

/-- End-URI descriptor constants from `steam_network.authentication`. -/
inductive EndUri
  | LOGIN_FINISHED
  | TWO_FACTOR_MAIL_FINISHED
  | TWO_FACTOR_MOBILE_FINISHED
  | PUBLIC_PROMPT_FINISHED
deriving DecidableEq, Repr

/-- `galaxy.api.types.Authentication(user_id, user_name)`; the backend passes
the identity cache's (possibly unset) fields straight through. -/
structure Authentication where
  user_id : Option Nat
  user_name : Option String
deriving DecidableEq, Repr

/-- Union result of the authentication entry points: a terminal
`Authentication` or a `NextStep` descriptor pair. -/
inductive AuthResult
  | auth (a : Authentication)
  | nextStep (start_uri : StartUri) (end_uri : EndUri)
deriving DecidableEq, Repr

/-- `next_step_response(start_uri, end_uri)` from
`steam_network.authentication`: builds the `NextStep` descriptor for an
interactive step (modelled as the descriptor pair itself). -/
def next_step_response (s : StartUri) (e : EndUri) : AuthResult :=
  AuthResult.nextStep s e

/-- Handshake outcomes on the inbound queue
(`steam_network.websocket_client.UserActionRequired`); the backend compares
against the three named members, `otherAction` stands for every other
member of the enumeration. -/
inductive UserActionRequired
  | NoActionRequired
  | EmailTwoFactorInputRequired
  | PhoneTwoFactorInputRequired
  | otherAction
deriving DecidableEq, Repr

/-- Identity record (`steam_network.user_info_cache.UserInfoCache`), modelled
from its use sites and spec section 3: account id, display name, captured
username; all unset at session start. -/
structure UserInfoCache where
  steam_id : Option Nat := none
  persona_name : Option String := none
  account_username : Option String := none
deriving DecidableEq, Repr

/-- Mutable state of the login controller that the handlers touch: the
identity record and `self._auth_data` (captured `[username, password]`,
`None` outside an in-progress login). -/
structure LoginState where
  user_info_cache : UserInfoCache
  auth_data : Option (String × String)
deriving DecidableEq, Repr

/-- Observable actions of a handler run, in order: an outbound queue `put`
(password, optional two-factor code), an inbound-queue bounded `get`, a
`store_credentials` call, and a profile-visibility check (recording the
pending `_auth_data` at the moment the check is entered). -/
inductive LoginEv
  | putOutbound (password : String) (two_factor : Option String)
  | getAuthStep
  | storeCredentials (blob : UserInfoCache)
  | profileCheck (pending_auth_data : Option (String × String))
deriving DecidableEq, Repr

/-- Outcome of one run of the profile-visibility collaborator
(`user_profile.UserProfileChecker.check_is_public_by_steam_id`): normal
return, or one of the exceptions the backend catches. -/
inductive ProfileCheckOutcome
  | ok
  | ProfileIsNotPublic
  | NotPublicGameDetailsOrUserHasNoGames
  | ProfileDoesNotExist
  | ValueErrorRaised
  | OtherException
deriving DecidableEq, Repr

/-- Environment of one handler invocation: the message the bounded wait on
the inbound queue would deliver (`none` = the 20-second wait times out), and
the profile-visibility outcome if a check is reached. -/
structure LoginEnv where
  authStepMsg : Option UserActionRequired
  profileOutcome : ProfileCheckOutcome
deriving DecidableEq, Repr

/-- Completion payload handed to `pass_login_credentials`: the end URI and
its parsed query parameters (`urllib.parse.parse_qs` modelled as given). -/
structure Credentials where
  end_uri : String
  username : Option String := none
  password : Option String := none
  code : Option String := none
  resend : Bool := false
  public_profile_fallback : Option String := none
deriving DecidableEq, Repr

/-- `_get_websocket_auth_step`: bounded (20 s) wait on the inbound plugin
queue; a delivered message yields its `auth_result`, an elapsed wait is
caught and turned into `NoActionRequired` (the `raise BackendTimeout()`
alternative is commented out in the source). -/
def _get_websocket_auth_step (msg : Option UserActionRequired) :
    Except GalaxyError UserActionRequired :=
  match msg with
  | some r => Except.ok r
  | none => Except.ok UserActionRequired.NoActionRequired

/-- `_check_public_profile`: dispatch on the profile-visibility outcome.
Two recoverable failures route to the public-profile prompt with distinct
descriptors, nonexistent profile and malformed id raise
`UnknownBackendResponse`, any other exception degrades to the generic
unknown-error prompt, and a clean check yields `Authentication`. -/
def _check_public_profile (cache : UserInfoCache) (outcome : ProfileCheckOutcome) :
    Except GalaxyError AuthResult :=
  match outcome with
  | ProfileCheckOutcome.ProfileIsNotPublic =>
      Except.ok (next_step_response StartUri.PP_PROMPT__PROFILE_IS_NOT_PUBLIC
        EndUri.PUBLIC_PROMPT_FINISHED)
  | ProfileCheckOutcome.NotPublicGameDetailsOrUserHasNoGames =>
      Except.ok (next_step_response
        StartUri.PP_PROMPT__NOT_PUBLIC_GAME_DETAILS_OR_USER_HAS_NO_GAMES
        EndUri.PUBLIC_PROMPT_FINISHED)
  | ProfileCheckOutcome.ProfileDoesNotExist =>
      Except.error GalaxyError.UnknownBackendResponse
  | ProfileCheckOutcome.ValueErrorRaised =>
      Except.error GalaxyError.UnknownBackendResponse
  | ProfileCheckOutcome.OtherException =>
      Except.ok (next_step_response StartUri.PP_PROMPT__UNKNOWN_ERROR
        EndUri.PUBLIC_PROMPT_FINISHED)
  | ProfileCheckOutcome.ok =>
      Except.ok (AuthResult.auth
        { user_id := cache.steam_id, user_name := cache.persona_name })

/-- `_handle_login_finished`: capture username into the identity record and
`[username, password]` into `_auth_data`, submit the password, take one
bounded handshake result, then branch: `NoActionRequired` clears
`_auth_data`, persists credentials and runs the profile check; the two
two-factor results emit the matching next step; anything else emits the
login-failed step. Missing username/password parameters emit the
login-failed step without touching state. -/
def _handle_login_finished (s : LoginState) (env : LoginEnv) (creds : Credentials) :
    Except PErr AuthResult × LoginState × List LoginEv :=
  match creds.username, creds.password with
  | some u, some p =>
    let s1 : LoginState :=
      { user_info_cache := { s.user_info_cache with account_username := some u },
        auth_data := some (u, p) }
    let evs := [LoginEv.putOutbound p none, LoginEv.getAuthStep]
    match _get_websocket_auth_step env.authStepMsg with
    | Except.error e => (Except.error (PErr.galaxy e), s1, evs)
    | Except.ok UserActionRequired.NoActionRequired =>
      let s2 : LoginState := { s1 with auth_data := none }
      ((_check_public_profile s2.user_info_cache env.profileOutcome).mapError PErr.galaxy,
       s2,
       evs ++ [LoginEv.storeCredentials s2.user_info_cache, LoginEv.profileCheck s2.auth_data])
    | Except.ok UserActionRequired.EmailTwoFactorInputRequired =>
      (Except.ok (next_step_response StartUri.TWO_FACTOR_MAIL EndUri.TWO_FACTOR_MAIL_FINISHED),
       s1, evs)
    | Except.ok UserActionRequired.PhoneTwoFactorInputRequired =>
      (Except.ok (next_step_response StartUri.TWO_FACTOR_MOBILE EndUri.TWO_FACTOR_MOBILE_FINISHED),
       s1, evs)
    | Except.ok UserActionRequired.otherAction =>
      (Except.ok (next_step_response StartUri.LOGIN_FAILED EndUri.LOGIN_FINISHED), s1, evs)
  | _, _ =>
    (Except.ok (next_step_response StartUri.LOGIN_FAILED EndUri.LOGIN_FINISHED), s, [])

/-- `_handle_two_step`: without a `code` parameter, emit the channel's
failure step. With a code, resubmit `{password, two_factor}` (subscripting
`_auth_data`, a `TypeError` when it is unset), take one bounded handshake
result; a non-`NoActionRequired` result emits the failure step with
`_auth_data` untouched, `NoActionRequired` clears `_auth_data`, persists
credentials and yields `Authentication`. -/
def _handle_two_step (s : LoginState) (env : LoginEnv) (params_code : Option String)
    (fail : StartUri) (finish : EndUri) :
    Except PErr AuthResult × LoginState × List LoginEv :=
  match params_code with
  | none => (Except.ok (next_step_response fail finish), s, [])
  | some two_factor =>
    match s.auth_data with
    | none => (Except.error PErr.typeError, s, [])
    | some (_, password) =>
      let evs := [LoginEv.putOutbound password (some two_factor), LoginEv.getAuthStep]
      match _get_websocket_auth_step env.authStepMsg with
      | Except.error e => (Except.error (PErr.galaxy e), s, evs)
      | Except.ok r =>
        if r ≠ UserActionRequired.NoActionRequired then
          (Except.ok (next_step_response fail finish), s, evs)
        else
          let s2 : LoginState := { s with auth_data := none }
          (Except.ok (AuthResult.auth
             { user_id := s2.user_info_cache.steam_id,
               user_name := s2.user_info_cache.persona_name }),
           s2,
           evs ++ [LoginEv.storeCredentials s2.user_info_cache])

/-- `_handle_two_step_mobile_finished`: forwards to `_handle_two_step` with
the mobile failure/finish descriptors; the mobile handler has no resend
branch. -/
def _handle_two_step_mobile_finished (s : LoginState) (env : LoginEnv) (creds : Credentials) :
    Except PErr AuthResult × LoginState × List LoginEv :=
  _handle_two_step s env creds.code
    StartUri.TWO_FACTOR_MOBILE_FAILED EndUri.TWO_FACTOR_MOBILE_FINISHED

/-- `_handle_two_step_email_finished`: a `resend` parameter resubmits the
stored password alone, drains (and discards) one handshake result and
re-emits the email two-factor step with state untouched; otherwise defer to
`_handle_two_step` with the email descriptors. -/
def _handle_two_step_email_finished (s : LoginState) (env : LoginEnv) (creds : Credentials) :
    Except PErr AuthResult × LoginState × List LoginEv :=
  if creds.resend then
    match s.auth_data with
    | none => (Except.error PErr.typeError, s, [])
    | some (_, password) =>
      (Except.ok (next_step_response StartUri.TWO_FACTOR_MAIL EndUri.TWO_FACTOR_MAIL_FINISHED),
       s, [LoginEv.putOutbound password none, LoginEv.getAuthStep])
  else
    _handle_two_step s env creds.code
      StartUri.TWO_FACTOR_MAIL_FAILED EndUri.TWO_FACTOR_MAIL_FINISHED

/-- `distutils.util.strtobool` (Python standard library): recognises the
usual truthy/falsy strings after lowercasing, raises `ValueError` on
anything else. -/
def strtobool (val : String) : Except PErr Bool :=
  let v := val.toLower
  if v = "y" ∨ v = "yes" ∨ v = "t" ∨ v = "true" ∨ v = "on" ∨ v = "1" then
    Except.ok true
  else if v = "n" ∨ v = "no" ∨ v = "f" ∨ v = "false" ∨ v = "off" ∨ v = "0" then
    Except.ok false
  else
    Except.error PErr.valueError

/-- `_handle_public_prompt_finished`: read the `public_profile_fallback`
flag (`strtobool(None)` raises `AttributeError` when the parameter is
missing); opting in re-runs the profile check, otherwise yield
`Authentication` directly. -/
def _handle_public_prompt_finished (s : LoginState) (env : LoginEnv) (creds : Credentials) :
    Except PErr AuthResult × LoginState × List LoginEv :=
  match creds.public_profile_fallback with
  | none => (Except.error PErr.attributeError, s, [])
  | some v =>
    match strtobool v with
    | Except.error e => (Except.error e, s, [])
    | Except.ok true =>
      ((_check_public_profile s.user_info_cache env.profileOutcome).mapError PErr.galaxy,
       s, [LoginEv.profileCheck s.auth_data])
    | Except.ok false =>
      (Except.ok (AuthResult.auth
         { user_id := s.user_info_cache.steam_id,
           user_name := s.user_info_cache.persona_name }),
       s, [])

/-- Character-list prefix test (helper for the substring check). -/
def startsWithB : List Char → List Char → Bool
  | [], _ => true
  | _ :: _, [] => false
  | a :: as, b :: bs => (a == b) && startsWithB as bs

/-- Does `needle` occur as a contiguous run inside the haystack? -/
def containsSub (needle : List Char) : List Char → Bool
  | [] => startsWithB needle []
  | c :: t => startsWithB needle (c :: t) || containsSub needle t

/-- Substring containment, embedding Python's `needle in haystack`. -/
def strContains (haystack needle : String) : Bool :=
  containsSub needle.toList haystack.toList

/-- `USER_INFO_CACHE_INITIALIZED_TIMEOUT`: bound (seconds) on the
stored-credential resume race. -/
def USER_INFO_CACHE_INITIALIZED_TIMEOUT : Nat := 30

/-- Resolution of the `asyncio.wait(..., timeout=30, FIRST_COMPLETED)` race
in `_authenticate_with_stored_credentials`: which of the two tasks are in
the `done` set (both `false` = the timeout elapsed), the error the run loop
terminated with if it terminated, and the identity record's contents once
(and if) its readiness signal fired. -/
structure ResumeEnv where
  identityDone : Bool
  runLoopDone : Bool
  runLoopError : Option String
  cacheAtReady : UserInfoCache
deriving DecidableEq, Repr

/-- Failure modes of the stored-credential resume path. -/
inductive ResumeError
  | propagated (e : String)
  | unknown (msg : String)
  | backendTimeout
deriving DecidableEq, Repr

/-- Full observable outcome of one stored-credential resume: the returned
value or raised error, the credential blob passed to `store_credentials`
(if any), and whether the run loop was cancelled (via `_cancel_task`, which
suppresses the `CancelledError` acknowledgment). -/
structure ResumeResult where
  outcome : Except ResumeError Authentication
  storedCredentials : Option UserInfoCache
  runLoopCancelled : Bool
deriving Repr

/-- `_authenticate_with_stored_credentials`: restore the identity record
from the stored blob, start the run loop, race identity readiness against
run-loop termination under the 30 s bound. Identity ready (checked first)
persists credentials and returns `Authentication`; a terminated run loop
re-raises its error, or raises `UnknownError` on a clean exit; an elapsed
timeout cancels the run loop and raises `BackendTimeout`. -/
def _authenticate_with_stored_credentials (stored : UserInfoCache) (env : ResumeEnv) :
    ResumeResult :=
  let _restored := stored
  if env.identityDone then
    { outcome := Except.ok
        { user_id := env.cacheAtReady.steam_id, user_name := env.cacheAtReady.persona_name },
      storedCredentials := some env.cacheAtReady,
      runLoopCancelled := false }
  else if env.runLoopDone then
    match env.runLoopError with
    | some e =>
      { outcome := Except.error (ResumeError.propagated e),
        storedCredentials := none, runLoopCancelled := false }
    | none =>
      { outcome := Except.error (ResumeError.unknown "Unexcpeted, silent websocket close."),
        storedCredentials := none, runLoopCancelled := false }
  else
    { outcome := Except.error ResumeError.backendTimeout,
      storedCredentials := none, runLoopCancelled := true }

/-- A catalog entry (`appid`, `title`) as consumed from the games cache. -/
structure App where
  appid : Nat
  title : String
deriving DecidableEq, Repr

/-- Observable steps of the owned-games forwarding loop: one `add_game`
call per entry, and one rate-limit pause (`asyncio.sleep(5)`). -/
inductive FwdEv
  | add (g : App)
  | pause
deriving DecidableEq, Repr

/-- The forwarding loop of `_update_owned_games`:
`for i, game in enumerate(new_games): add_game(game); if i % 50 == 49: sleep`. -/
def forwardGo : Nat → List App → List FwdEv
  | _, [] => []
  | i, g :: gs =>
    FwdEv.add g ::
      (if i % 50 = 49 then FwdEv.pause :: forwardGo (i + 1) gs
       else forwardGo (i + 1) gs)

/-- Number of pause events in a forwarding trace. -/
def countPauses : List FwdEv → Nat
  | [] => 0
  | FwdEv.pause :: t => countPauses t + 1
  | FwdEv.add _ :: t => countPauses t

/-- Result of one `_update_owned_games` run: whether the catalog snapshot
was persisted, and the ordered forwarding trace. -/
structure UpdateOwnedResult where
  persisted : Bool
  events : List FwdEv
deriving DecidableEq, Repr

/-- `_update_owned_games` over the drained batch of newly added entries: an
empty drain returns immediately; otherwise persist the snapshot and forward
each entry, pausing after every 50th. -/
def _update_owned_games (new_games : List App) : UpdateOwnedResult :=
  if new_games.isEmpty then { persisted := false, events := [] }
  else { persisted := true, events := forwardGo 0 new_games }

/-- `pass_login_credentials`: route on substrings of the payload's end URI
to the four handlers; a payload matching none of the four falls through all
the `if` statements and the method implicitly returns Python `None`
(modelled as a `none` result). -/
def pass_login_credentials (s : LoginState) (env : LoginEnv) (creds : Credentials) :
    Option (Except PErr AuthResult) × LoginState × List LoginEv :=
  if strContains creds.end_uri "login_finished" then
    let r := _handle_login_finished s env creds
    (some r.1, r.2.1, r.2.2)
  else if strContains creds.end_uri "two_factor_mobile_finished" then
    let r := _handle_two_step_mobile_finished s env creds
    (some r.1, r.2.1, r.2.2)
  else if strContains creds.end_uri "two_factor_mail_finished" then
    let r := _handle_two_step_email_finished s env creds
    (some r.1, r.2.1, r.2.2)
  else if strContains creds.end_uri "public_prompt_finished" then
    let r := _handle_public_prompt_finished s env creds
    (some r.1, r.2.1, r.2.2)
  else
    (none, s, [])

/-- `GAME_CACHE_IS_READY_TIMEOUT` (seconds). -/
def GAME_CACHE_IS_READY_TIMEOUT : Nat := 90

/-- `GAME_DOES_NOT_SUPPORT_LAST_PLAYED_VALUE`: sentinel last-played value
meaning the game does not report a last-played time. -/
def GAME_DOES_NOT_SUPPORT_LAST_PLAYED_VALUE : Nat := 86400

/-- `STEAMCOMMUNITY_PROFILE_BASE_URL`. -/
def STEAMCOMMUNITY_PROFILE_BASE_URL : String :=
  "https://steamcommunity.com/profiles/"

/-- `NO_AVATAR_SET`. -/
def NO_AVATAR_SET : String := "0000000000000000000000000000000000000000"

/-- `DEFAULT_AVATAR_HASH`. -/
def DEFAULT_AVATAR_HASH : String := "fef49e7fa7e1997310d705b2a6158ff8dc1cdfeb"

/-- `avatar_url_from_avatar_hash`: substitute the default hash for the
all-zero sentinel, then interpolate into the avatar URL template. -/
def avatar_url_from_avatar_hash (a_hash : String) : String :=
  let h := if a_hash = NO_AVATAR_SET then DEFAULT_AVATAR_HASH else a_hash
  "https://steamcdn-a.akamaihd.net/steamcommunity/public/images/avatars/"
    ++ (h.take 2) ++ "/" ++ h ++ "_full.jpg"

/-- `galaxy.api.types.LicenseType` members used by the backend. -/
inductive LicenseType
  | SinglePurchase
deriving DecidableEq, Repr

/-- `galaxy.api.types.LicenseInfo`. -/
structure LicenseInfo where
  license_type : LicenseType
  owner : Option String
deriving DecidableEq, Repr

/-- `galaxy.api.types.Game`. -/
structure Game where
  game_id : String
  game_title : String
  dlcs : List String
  license_info : LicenseInfo
deriving DecidableEq, Repr

/-- `galaxy.api.types.SubscriptionDiscovery` member used by the backend. -/
inductive SubscriptionDiscovery
  | AUTOMATIC
deriving DecidableEq, Repr

/-- `galaxy.api.types.Subscription`. -/
structure Subscription where
  subscription_name : String
  owned : Bool
  end_time : Option Nat
  subscription_discovery : SubscriptionDiscovery
deriving DecidableEq, Repr

/-- `galaxy.api.types.GameTime`. -/
structure GameTime where
  game_id : String
  time_played : Option Nat
  last_played : Option Nat
deriving DecidableEq, Repr

/-- `galaxy.api.types.UserInfo` (friend entry). -/
structure UserInfo where
  user_id : String
  user_name : String
  avatar_url : String
  profile_url : String
deriving DecidableEq, Repr

/-- Protocol-level user record (`steam_network.protocol.types.ProtoUserInfo`)
as consumed here: a display name and an avatar hash (already hex-encoded). -/
structure ProtoUserInfo where
  name : String
  avatar_hash_hex : String
deriving DecidableEq, Repr

/-- Opaque presence value produced by `presence_from_user_info`
(collaborator module outside the snapshot). -/
structure UserPresence where
  presence_tag : Nat
deriving DecidableEq, Repr

/-- Backend state consulted by the feature query methods: the identity
record and the `_owned_games_parsed` flag. -/
structure FState where
  user_info_cache : UserInfoCache
  owned_games_parsed : Bool
deriving DecidableEq, Repr

/-- Cache / collaborator operations a feature method can perform, recorded
in order so that "fails before touching any cache" is a statement about the
trace. -/
inductive CacheOp
  | waitReadyGames
  | iterOwnedGames
  | iterSharedGames
  | refreshGameStats (game_ids : List String)
  | waitReadyStats
  | refreshGameTimes
  | waitReadyTimes
  | retrieveCollections
  | wsGetFriends
  | wsGetFriendsInfo
  | wsGetFriendsNicknames
deriving DecidableEq, Repr

/-- Oracle for one feature-method invocation: contents the asynchronous
caches / collaborators would deliver, whether each bounded readiness wait
elapses, and the two external predicates of the Witcher 3 GOTY hack
(`steam_network.w3_hack`, module outside the snapshot). -/
structure FeatureEnv where
  ownedApps : List App
  ownedGamesParseError : Bool
  sharedApps : List App
  gamesWaitTimesOut : Bool
  statsImportInProgress : Bool
  statsWaitTimesOut : Bool
  timesImportInProgress : Bool
  timesWaitTimesOut : Bool
  collections : List (String × List Nat)
  friendsInfos : List (String × ProtoUserInfo)
  friendsNicknames : List (String × String)
  w3DlcAppIds : List Nat
  w3GotyAppId : String
  w3GotyTitle : String
  w3Resolve : List Nat → Bool
  presenceOf : ProtoUserInfo → UserPresence

/-- Modelled from the spec: a readiness-gated cache's `wait_ready(timeout)`
(cache classes are outside the snapshot) returns once the readiness signal
is set within the bound, else raises a timeout-class failure. -/
def waitReadyOutcome (timesOut : Bool) : Except GalaxyError Unit :=
  if timesOut then Except.error GalaxyError.BackendTimeout else Except.ok ()

/-- `get_owned_games`: authentication guard first, then wait on the catalog
cache, then translate each owned app (adding the Witcher 3 GOTY entry when
the owned DLC set resolves to it); parse failures surface as
`UnknownBackendResponse`. -/
def get_owned_games (s : FState) (env : FeatureEnv) :
    Except GalaxyError (List Game) × List CacheOp :=
  if s.user_info_cache.steam_id = none then
    (Except.error GalaxyError.AuthenticationRequired, [])
  else
    match waitReadyOutcome env.gamesWaitTimesOut with
    | Except.error e => (Except.error e, [CacheOp.waitReadyGames])
    | Except.ok _ =>
      if env.ownedGamesParseError then
        (Except.error GalaxyError.UnknownBackendResponse,
         [CacheOp.waitReadyGames, CacheOp.iterOwnedGames])
      else
        let owned_games := env.ownedApps.map fun app =>
          { game_id := toString app.appid, game_title := app.title, dlcs := [],
            license_info := { license_type := LicenseType.SinglePurchase, owner := none } }
        let owned_witcher_3_dlcs :=
          (env.ownedApps.filter fun app => app.appid ∈ env.w3DlcAppIds).map App.appid
        let result :=
          if env.w3Resolve owned_witcher_3_dlcs then
            owned_games ++
              [{ game_id := env.w3GotyAppId, game_title := env.w3GotyTitle, dlcs := [],
                 license_info := { license_type := LicenseType.SinglePurchase, owner := none } }]
          else owned_games
        (Except.ok result, [CacheOp.waitReadyGames, CacheOp.iterOwnedGames])

/-- `get_subscriptions`: no authentication guard in the source; wait on the
catalog cache only when the initial enumeration has not completed, then
report the Steam Family Sharing subscription as owned when at least one
shared game exists. -/
def get_subscriptions (s : FState) (env : FeatureEnv) :
    Except GalaxyError (List Subscription) × List CacheOp :=
  let pre := if s.owned_games_parsed then [] else [CacheOp.waitReadyGames]
  let waited : Except GalaxyError Unit :=
    if s.owned_games_parsed then Except.ok () else waitReadyOutcome env.gamesWaitTimesOut
  match waited with
  | Except.error e => (Except.error e, pre)
  | Except.ok _ =>
    let any_shared_game := !env.sharedApps.isEmpty
    (Except.ok
       [{ subscription_name := "Steam Family Sharing", owned := any_shared_game,
          end_time := none, subscription_discovery := SubscriptionDiscovery.AUTOMATIC }],
     pre ++ [CacheOp.iterSharedGames])

/-- `prepare_achievements_context`: authentication guard first, then issue a
stats refresh unless an import is already in flight, then wait (10 min) on
stats readiness. -/
def prepare_achievements_context (s : FState) (env : FeatureEnv) (game_ids : List String) :
    Except GalaxyError Unit × List CacheOp :=
  if s.user_info_cache.steam_id = none then
    (Except.error GalaxyError.AuthenticationRequired, [])
  else
    let refresh :=
      if env.statsImportInProgress then [] else [CacheOp.refreshGameStats game_ids]
    match waitReadyOutcome env.statsWaitTimesOut with
    | Except.error e => (Except.error e, refresh ++ [CacheOp.waitReadyStats])
    | Except.ok _ => (Except.ok (), refresh ++ [CacheOp.waitReadyStats])

/-- `prepare_game_times_context`: authentication guard first, then issue a
playtime refresh unless an import is already in flight, then wait (10 min)
on playtime readiness. -/
def prepare_game_times_context (s : FState) (env : FeatureEnv) :
    Except GalaxyError Unit × List CacheOp :=
  if s.user_info_cache.steam_id = none then
    (Except.error GalaxyError.AuthenticationRequired, [])
  else
    let refresh := if env.timesImportInProgress then [] else [CacheOp.refreshGameTimes]
    match waitReadyOutcome env.timesWaitTimesOut with
    | Except.error e => (Except.error e, refresh ++ [CacheOp.waitReadyTimes])
    | Except.ok _ => (Except.ok (), refresh ++ [CacheOp.waitReadyTimes])

/-- `prepare_game_library_settings_context`: authentication guard first,
then fetch the collection memberships. -/
def prepare_game_library_settings_context (s : FState) (env : FeatureEnv) :
    Except GalaxyError (List (String × List Nat)) × List CacheOp :=
  if s.user_info_cache.steam_id = none then
    (Except.error GalaxyError.AuthenticationRequired, [])
  else
    (Except.ok env.collections, [CacheOp.retrieveCollections])

/-- `_galaxy_user_info_from_user_info`: build the host's `UserInfo` from a
protocol user record. -/
def _galaxy_user_info_from_user_info (user_id : String) (user_info : ProtoUserInfo) :
    UserInfo :=
  { user_id := user_id,
    user_name := user_info.name,
    avatar_url := avatar_url_from_avatar_hash user_info.avatar_hash_hex,
    profile_url := STEAMCOMMUNITY_PROFILE_BASE_URL ++ user_id }

/-- `get_friends`: authentication guard first, then fetch ids, infos and
nicknames from the protocol session and translate, appending a parenthesised
nickname when one exists. -/
def get_friends (s : FState) (env : FeatureEnv) :
    Except GalaxyError (List UserInfo) × List CacheOp :=
  if s.user_info_cache.steam_id = none then
    (Except.error GalaxyError.AuthenticationRequired, [])
  else
    let friends := env.friendsInfos.map fun fi =>
      let friend := _galaxy_user_info_from_user_info fi.1 fi.2
      match env.friendsNicknames.lookup fi.1 with
      | some nick => { friend with user_name := friend.user_name ++ " (" ++ nick ++ ")" }
      | none => friend
    (Except.ok friends,
     [CacheOp.wsGetFriends, CacheOp.wsGetFriendsInfo, CacheOp.wsGetFriendsNicknames])

/-- One playtime-cache entry: the `time_played` / `last_played` keys of the
per-game dict (either may be absent). -/
structure TimesEntry where
  time_played : Option Nat := none
  last_played : Option Nat := none
deriving DecidableEq, Repr

/-- `get_game_time`: read the per-game dict from the playtime cache
(defaulting to an empty dict), replace the sentinel last-played value with
`None`, and return the `GameTime`; no authentication guard and no raise. -/
def get_game_time (times_cache : List (String × TimesEntry)) (game_id : String) :
    GameTime :=
  let entry := (times_cache.lookup game_id).getD {}
  let time_played := entry.time_played
  let lp := entry.last_played
  let last_played :=
    if lp = some GAME_DOES_NOT_SUPPORT_LAST_PLAYED_VALUE then none else lp
  { game_id := game_id, time_played := time_played, last_played := last_played }

/-- `prepare_user_presence_context`: no authentication guard; fetch friend
infos for the requested ids (collaborator lookup modelled as a filter of
the session's friend records). -/
def prepare_user_presence_context (env : FeatureEnv) (user_ids : List String) :
    Except GalaxyError (List (String × ProtoUserInfo)) × List CacheOp :=
  (Except.ok (env.friendsInfos.filter fun p => p.1 ∈ user_ids),
   [CacheOp.wsGetFriendsInfo])

/-- `get_user_presence`: no authentication guard; a user absent from the
prepared context raises `UnknownError`, otherwise translate the record. -/
def get_user_presence (env : FeatureEnv) (user_id : String)
    (context : List (String × ProtoUserInfo)) :
    Except GalaxyError UserPresence × List CacheOp :=
  match context.lookup user_id with
  | none =>
    (Except.error (GalaxyError.UnknownError
       ("User " ++ user_id ++ " not in friend list (plugin only supports fetching presence for friends)")),
     [])
  | some ui => (Except.ok (env.presenceOf ui), [])

/-- Sample identity record for the concrete instantiations below. -/
def sampleIdentity : UserInfoCache :=
  { steam_id := some 42, persona_name := some "persona", account_username := some "user" }

/-- Login-controller state mid-handshake (pending password set). -/
def sampleLoginState : LoginState :=
  { user_info_cache := sampleIdentity, auth_data := some ("user", "pw") }

/-- Handler environment where the handshake result is `NoActionRequired`
and the profile check passes. -/
def envNoAction : LoginEnv :=
  { authStepMsg := some UserActionRequired.NoActionRequired,
    profileOutcome := ProfileCheckOutcome.ok }

/-- Handler environment where the handshake result is an unrecognised
member of the enumeration. -/
def envOtherAction : LoginEnv :=
  { authStepMsg := some UserActionRequired.otherAction,
    profileOutcome := ProfileCheckOutcome.ok }

/-- Feature-method state with no authenticated identity and no completed
catalog enumeration. -/
def unauthFState : FState :=
  { user_info_cache := {}, owned_games_parsed := false }

/-- Feature environment where every cache is empty and every readiness wait
succeeds. -/
def sampleFeatureEnv : FeatureEnv :=
  { ownedApps := [], ownedGamesParseError := false, sharedApps := [],
    gamesWaitTimesOut := false, statsImportInProgress := false,
    statsWaitTimesOut := false, timesImportInProgress := false,
    timesWaitTimesOut := false, collections := [],
    friendsInfos := [], friendsNicknames := [], w3DlcAppIds := [],
    w3GotyAppId := "w3goty", w3GotyTitle := "The Witcher 3 GOTY",
    w3Resolve := fun _ => false, presenceOf := fun _ => { presence_tag := 0 } }

/-- Pause count of a forwarding trace started at loop index `i`: one pause
per multiple of 50 crossed. -/
theorem countPauses_forwardGo (gs : List App) :
    ∀ i, countPauses (forwardGo i gs) = (i % 50 + gs.length) / 50 := by
  induction gs with
  | nil =>
    intro i
    simp only [forwardGo, countPauses, List.length_nil]
    omega
  | cons g t ih =>
    intro i
    simp only [forwardGo]
    by_cases h : i % 50 = 49
    · simp only [if_pos h, countPauses, ih (i + 1), List.length_cons]
      omega
    · simp only [if_neg h, countPauses, ih (i + 1), List.length_cons]
      omega

/-- C3: a timed-out bounded wait on the inbound handshake-result queue
yields `NoActionRequired` rather than raising; no exception escapes the
wait for any delivered message either. -/
theorem c3_handshake_wait_timeout_soft :
    _get_websocket_auth_step none = Except.ok UserActionRequired.NoActionRequired ∧
    ∀ msg, ∃ r, _get_websocket_auth_step msg = Except.ok r := by
  refine ⟨rfl, ?_⟩
  intro msg
  cases msg with
  | none => exact ⟨UserActionRequired.NoActionRequired, rfl⟩
  | some r => exact ⟨r, rfl⟩

/-- C4: the profile-visibility check routes "not public" and "no public
game details / no games" to the public-profile decision with distinct
prompt descriptors, raises `UnknownBackendResponse` on a nonexistent
profile or malformed id, degrades any other failure to the generic
unknown-error prompt, and returns `Authentication` on success. -/
theorem c4_profile_check_routing (cache : UserInfoCache) :
    _check_public_profile cache ProfileCheckOutcome.ProfileIsNotPublic =
      Except.ok (next_step_response StartUri.PP_PROMPT__PROFILE_IS_NOT_PUBLIC
        EndUri.PUBLIC_PROMPT_FINISHED) ∧
    _check_public_profile cache ProfileCheckOutcome.NotPublicGameDetailsOrUserHasNoGames =
      Except.ok (next_step_response
        StartUri.PP_PROMPT__NOT_PUBLIC_GAME_DETAILS_OR_USER_HAS_NO_GAMES
        EndUri.PUBLIC_PROMPT_FINISHED) ∧
    StartUri.PP_PROMPT__PROFILE_IS_NOT_PUBLIC ≠
      StartUri.PP_PROMPT__NOT_PUBLIC_GAME_DETAILS_OR_USER_HAS_NO_GAMES ∧
    _check_public_profile cache ProfileCheckOutcome.ProfileDoesNotExist =
      Except.error GalaxyError.UnknownBackendResponse ∧
    _check_public_profile cache ProfileCheckOutcome.ValueErrorRaised =
      Except.error GalaxyError.UnknownBackendResponse ∧
    _check_public_profile cache ProfileCheckOutcome.OtherException =
      Except.ok (next_step_response StartUri.PP_PROMPT__UNKNOWN_ERROR
        EndUri.PUBLIC_PROMPT_FINISHED) ∧
    _check_public_profile cache ProfileCheckOutcome.ok =
      Except.ok (AuthResult.auth
        { user_id := cache.steam_id, user_name := cache.persona_name }) := by
  exact ⟨rfl, rfl, by decide, rfl, rfl, rfl, rfl⟩

/-- C10: the playtime lookup copies the cached time-played, maps the
sentinel last-played value 86400 to `None`, passes any other cached
last-played through, and yields both fields `None` for an id absent from
the cache. -/
theorem c10_game_time_lookup (cache : List (String × TimesEntry)) (game_id : String) :
    (cache.lookup game_id = none →
      get_game_time cache game_id =
        { game_id := game_id, time_played := none, last_played := none }) ∧
    (∀ e, cache.lookup game_id = some e →
      (get_game_time cache game_id).time_played = e.time_played ∧
      (e.last_played = some GAME_DOES_NOT_SUPPORT_LAST_PLAYED_VALUE →
        (get_game_time cache game_id).last_played = none) ∧
      (e.last_played ≠ some GAME_DOES_NOT_SUPPORT_LAST_PLAYED_VALUE →
        (get_game_time cache game_id).last_played = e.last_played)) := by
  constructor
  · intro h
    simp [get_game_time, h]
  · intro e he
    refine ⟨?_, ?_, ?_⟩
    · simp [get_game_time, he]
    · intro hs
      simp [get_game_time, he, hs]
    · intro hs
      simp [get_game_time, he, hs]

/-- Witness for C10 at concrete caches: absent id, sentinel last-played,
and ordinary last-played. -/
theorem c10_game_time_lookup_witness :
    get_game_time [] "10" = { game_id := "10", time_played := none, last_played := none } ∧
    (get_game_time [("10", { time_played := some 7, last_played := some 86400 })] "10").last_played
      = none ∧
    (get_game_time [("10", { time_played := some 7, last_played := some 5 })] "10").last_played
      = some 5 := by
  refine ⟨(c10_game_time_lookup [] "10").1 rfl, ?_, ?_⟩
  · exact (((c10_game_time_lookup
      [("10", { time_played := some 7, last_played := some 86400 })] "10").2
      { time_played := some 7, last_played := some 86400 } rfl).2.1) rfl
  · exact (((c10_game_time_lookup
      [("10", { time_played := some 7, last_played := some 5 })] "10").2
      { time_played := some 7, last_played := some 5 } rfl).2.2) (by decide)

/-- C2: the stored-credential resume race has exactly four outcomes:
identity ready first persists credentials and returns `Authentication`; a
run loop that terminated with an error propagates it unchanged; a clean
run-loop exit raises the unexpected-silent-disconnect `UnknownError`; an
elapsed 30-unit timeout cancels the run loop and raises `BackendTimeout`. -/
theorem c2_resume_race (stored : UserInfoCache) (env : ResumeEnv) :
    (env.identityDone = true →
      _authenticate_with_stored_credentials stored env =
        { outcome := Except.ok
            { user_id := env.cacheAtReady.steam_id,
              user_name := env.cacheAtReady.persona_name },
          storedCredentials := some env.cacheAtReady,
          runLoopCancelled := false }) ∧
    (env.identityDone = false → env.runLoopDone = true →
      ∀ e, env.runLoopError = some e →
      _authenticate_with_stored_credentials stored env =
        { outcome := Except.error (ResumeError.propagated e),
          storedCredentials := none, runLoopCancelled := false }) ∧
    (env.identityDone = false → env.runLoopDone = true → env.runLoopError = none →
      _authenticate_with_stored_credentials stored env =
        { outcome := Except.error
            (ResumeError.unknown "Unexcpeted, silent websocket close."),
          storedCredentials := none, runLoopCancelled := false }) ∧
    (env.identityDone = false → env.runLoopDone = false →
      _authenticate_with_stored_credentials stored env =
        { outcome := Except.error ResumeError.backendTimeout,
          storedCredentials := none, runLoopCancelled := true }) ∧
    USER_INFO_CACHE_INITIALIZED_TIMEOUT = 30 := by
  refine ⟨?_, ?_, ?_, ?_, rfl⟩ <;>
    intros <;>
    simp_all [_authenticate_with_stored_credentials]

/-- Witness for C2 at the four concrete race resolutions. -/
theorem c2_resume_race_witness :
    _authenticate_with_stored_credentials sampleIdentity
      { identityDone := true, runLoopDone := false, runLoopError := none,
        cacheAtReady := sampleIdentity } =
      { outcome := Except.ok
          { user_id := sampleIdentity.steam_id, user_name := sampleIdentity.persona_name },
        storedCredentials := some sampleIdentity, runLoopCancelled := false } ∧
    _authenticate_with_stored_credentials sampleIdentity
      { identityDone := false, runLoopDone := true, runLoopError := some "ConnectionError",
        cacheAtReady := sampleIdentity } =
      { outcome := Except.error (ResumeError.propagated "ConnectionError"),
        storedCredentials := none, runLoopCancelled := false } ∧
    _authenticate_with_stored_credentials sampleIdentity
      { identityDone := false, runLoopDone := true, runLoopError := none,
        cacheAtReady := sampleIdentity } =
      { outcome := Except.error
          (ResumeError.unknown "Unexcpeted, silent websocket close."),
        storedCredentials := none, runLoopCancelled := false } ∧
    _authenticate_with_stored_credentials sampleIdentity
      { identityDone := false, runLoopDone := false, runLoopError := none,
        cacheAtReady := sampleIdentity } =
      { outcome := Except.error ResumeError.backendTimeout,
        storedCredentials := none, runLoopCancelled := true } := by
  refine ⟨?_, ?_, ?_, ?_⟩
  · exact (c2_resume_race sampleIdentity _).1 rfl
  · exact (c2_resume_race sampleIdentity _).2.1 rfl rfl "ConnectionError" rfl
  · exact (c2_resume_race sampleIdentity _).2.2.1 rfl rfl rfl
  · exact (c2_resume_race sampleIdentity _).2.2.2.1 rfl rfl

/-- C5: a login completion with username and password whose first
submission yields `NoActionRequired` and whose profile check passes
returns `Authentication` with the identity's account id and display name,
stores the captured username in the identity record, and clears the
pending password before the profile check runs (the recorded check event
sees an empty pending state). -/
theorem c5_login_first_submission_success
    (s : LoginState) (env : LoginEnv) (creds : Credentials) (u p : String)
    (hu : creds.username = some u) (hp : creds.password = some p)
    (hstep : env.authStepMsg = some UserActionRequired.NoActionRequired)
    (hprof : env.profileOutcome = ProfileCheckOutcome.ok) :
    (_handle_login_finished s env creds).1 =
      Except.ok (AuthResult.auth
        { user_id := s.user_info_cache.steam_id,
          user_name := s.user_info_cache.persona_name }) ∧
    (_handle_login_finished s env creds).2.1.user_info_cache.account_username = some u ∧
    (_handle_login_finished s env creds).2.1.auth_data = none ∧
    (_handle_login_finished s env creds).2.2 =
      [LoginEv.putOutbound p none, LoginEv.getAuthStep,
       LoginEv.storeCredentials { s.user_info_cache with account_username := some u },
       LoginEv.profileCheck none] := by
  refine ⟨?_, ?_, ?_, ?_⟩ <;>
    simp [_handle_login_finished, hu, hp, hstep, hprof,
      _get_websocket_auth_step, _check_public_profile, Except.mapError]

/-- Witness for C5 at a concrete login payload. -/
theorem c5_login_first_submission_success_witness :
    (_handle_login_finished sampleLoginState envNoAction
       { end_uri := "login_finished", username := some "user", password := some "pw" }).1 =
      Except.ok (AuthResult.auth
        { user_id := sampleLoginState.user_info_cache.steam_id,
          user_name := sampleLoginState.user_info_cache.persona_name }) ∧
    (_handle_login_finished sampleLoginState envNoAction
       { end_uri := "login_finished", username := some "user", password := some "pw" }).2.1.auth_data
      = none := by
  have h := c5_login_first_submission_success sampleLoginState envNoAction
    { end_uri := "login_finished", username := some "user", password := some "pw" }
    "user" "pw" rfl rfl rfl rfl
  exact ⟨h.1, h.2.2.1⟩

/-- C6 counterexample: a failed two-factor submission returns the
two-factor-failed step while the pending authentication state still holds
the password, so the pending password is not cleared on every
handshake-terminating path. -/
theorem c6_password_clearing_counterexample :
    (_handle_two_step_mobile_finished sampleLoginState envOtherAction
       { end_uri := "two_factor_mobile_finished", code := some "111" }).1 =
      Except.ok (next_step_response StartUri.TWO_FACTOR_MOBILE_FAILED
        EndUri.TWO_FACTOR_MOBILE_FINISHED) ∧
    (_handle_two_step_mobile_finished sampleLoginState envOtherAction
       { end_uri := "two_factor_mobile_finished", code := some "111" }).2.1.auth_data =
      some ("user", "pw") := by
  exact ⟨rfl, rfl⟩

/-- C6 amended: the pending password is cleared on the success-terminating
paths (first-submission `NoActionRequired` and two-factor success) but
retained on the failure steps (login-failed and two-factor-failed). -/
theorem c6_password_clearing_amended
    (s : LoginState) (env : LoginEnv) (creds : Credentials)
    (u p code : String) (fail : StartUri) (finish : EndUri) :
    (creds.username = some u → creds.password = some p →
      env.authStepMsg = some UserActionRequired.NoActionRequired →
      (_handle_login_finished s env creds).2.1.auth_data = none) ∧
    (creds.username = some u → creds.password = some p →
      env.authStepMsg = some UserActionRequired.otherAction →
      (_handle_login_finished s env creds).1 =
        Except.ok (next_step_response StartUri.LOGIN_FAILED EndUri.LOGIN_FINISHED) ∧
      (_handle_login_finished s env creds).2.1.auth_data = some (u, p)) ∧
    (s.auth_data = some (u, p) →
      env.authStepMsg = some UserActionRequired.NoActionRequired →
      (_handle_two_step s env (some code) fail finish).2.1.auth_data = none) ∧
    (s.auth_data = some (u, p) →
      env.authStepMsg = some UserActionRequired.otherAction →
      (_handle_two_step s env (some code) fail finish).1 =
        Except.ok (next_step_response fail finish) ∧
      (_handle_two_step s env (some code) fail finish).2.1.auth_data = some (u, p)) := by
  refine ⟨?_, ?_, ?_, ?_⟩ <;>
    intros <;>
    simp_all [_handle_login_finished, _handle_two_step, _get_websocket_auth_step]

/-- Witness for the amended C6 at concrete handler runs. -/
theorem c6_password_clearing_amended_witness :
    (_handle_login_finished sampleLoginState envNoAction
       { end_uri := "login_finished", username := some "user", password := some "pw" }).2.1.auth_data
      = none ∧
    (_handle_login_finished sampleLoginState envOtherAction
       { end_uri := "login_finished", username := some "user", password := some "pw" }).2.1.auth_data
      = some ("user", "pw") ∧
    (_handle_two_step sampleLoginState envNoAction (some "111")
       StartUri.TWO_FACTOR_MAIL_FAILED EndUri.TWO_FACTOR_MAIL_FINISHED).2.1.auth_data
      = none ∧
    (_handle_two_step sampleLoginState envOtherAction (some "111")
       StartUri.TWO_FACTOR_MAIL_FAILED EndUri.TWO_FACTOR_MAIL_FINISHED).2.1.auth_data
      = some ("user", "pw") := by
  refine ⟨?_, ?_, ?_, ?_⟩
  · exact (c6_password_clearing_amended sampleLoginState envNoAction
      { end_uri := "login_finished", username := some "user", password := some "pw" }
      "user" "pw" "111" StartUri.TWO_FACTOR_MAIL_FAILED EndUri.TWO_FACTOR_MAIL_FINISHED).1
      rfl rfl rfl
  · exact ((c6_password_clearing_amended sampleLoginState envOtherAction
      { end_uri := "login_finished", username := some "user", password := some "pw" }
      "user" "pw" "111" StartUri.TWO_FACTOR_MAIL_FAILED EndUri.TWO_FACTOR_MAIL_FINISHED).2.1
      rfl rfl rfl).2
  · exact (c6_password_clearing_amended sampleLoginState envNoAction
      { end_uri := "login_finished", username := some "user", password := some "pw" }
      "user" "pw" "111" StartUri.TWO_FACTOR_MAIL_FAILED EndUri.TWO_FACTOR_MAIL_FINISHED).2.2.1
      rfl rfl
  · exact ((c6_password_clearing_amended sampleLoginState envOtherAction
      { end_uri := "login_finished", username := some "user", password := some "pw" }
      "user" "pw" "111" StartUri.TWO_FACTOR_MAIL_FAILED EndUri.TWO_FACTOR_MAIL_FINISHED).2.2.2
      rfl rfl).2

/-- C7 counterexample: a mobile-channel payload signalling resend (no code)
does not resubmit the password and yields the mobile two-factor-failed
step, not the identical mobile two-factor step. -/
theorem c7_resend_counterexample :
    (_handle_two_step_mobile_finished sampleLoginState envNoAction
       { end_uri := "two_factor_mobile_finished", resend := true }).1 =
      Except.ok (next_step_response StartUri.TWO_FACTOR_MOBILE_FAILED
        EndUri.TWO_FACTOR_MOBILE_FINISHED) ∧
    (_handle_two_step_mobile_finished sampleLoginState envNoAction
       { end_uri := "two_factor_mobile_finished", resend := true }).2.2 = [] ∧
    next_step_response StartUri.TWO_FACTOR_MOBILE_FAILED EndUri.TWO_FACTOR_MOBILE_FINISHED ≠
      next_step_response StartUri.TWO_FACTOR_MOBILE EndUri.TWO_FACTOR_MOBILE_FINISHED := by
  exact ⟨rfl, rfl, by decide⟩

/-- C7 amended: only the email channel honours resend — it resubmits the
stored password alone, drains and discards one handshake event, re-emits
the identical email step and leaves the state unchanged; on the mobile
channel a code-less payload yields the mobile-failed step with no
resubmission and unchanged state. -/
theorem c7_resend_amended
    (s : LoginState) (env : LoginEnv) (creds : Credentials) (u p : String) :
    (creds.resend = true → s.auth_data = some (u, p) →
      _handle_two_step_email_finished s env creds =
        (Except.ok (next_step_response StartUri.TWO_FACTOR_MAIL
           EndUri.TWO_FACTOR_MAIL_FINISHED),
         s, [LoginEv.putOutbound p none, LoginEv.getAuthStep])) ∧
    (creds.code = none →
      _handle_two_step_mobile_finished s env creds =
        (Except.ok (next_step_response StartUri.TWO_FACTOR_MOBILE_FAILED
           EndUri.TWO_FACTOR_MOBILE_FINISHED),
         s, [])) := by
  constructor
  · intro hr ha
    simp [_handle_two_step_email_finished, hr, ha]
  · intro hc
    simp [_handle_two_step_mobile_finished, _handle_two_step, hc]

/-- Witness for the amended C7 at concrete resend payloads. -/
theorem c7_resend_amended_witness :
    _handle_two_step_email_finished sampleLoginState envNoAction
      { end_uri := "two_factor_mail_finished", resend := true } =
      (Except.ok (next_step_response StartUri.TWO_FACTOR_MAIL
         EndUri.TWO_FACTOR_MAIL_FINISHED),
       sampleLoginState, [LoginEv.putOutbound "pw" none, LoginEv.getAuthStep]) ∧
    _handle_two_step_mobile_finished sampleLoginState envNoAction
      { end_uri := "two_factor_mobile_finished", resend := true } =
      (Except.ok (next_step_response StartUri.TWO_FACTOR_MOBILE_FAILED
         EndUri.TWO_FACTOR_MOBILE_FINISHED),
       sampleLoginState, []) := by
  constructor
  · exact (c7_resend_amended sampleLoginState envNoAction
      { end_uri := "two_factor_mail_finished", resend := true } "user" "pw").1 rfl rfl
  · exact (c7_resend_amended sampleLoginState envNoAction
      { end_uri := "two_factor_mobile_finished", resend := true } "user" "pw").2 rfl

/-- C8: the forwarding loop pauses exactly once per 50 forwarded entries
(count = ⌊n/50⌋ for every batch), and forwarding 120 entries produces
exactly the trace 50 adds, pause, 50 adds, pause, 20 adds. -/
theorem c8_rate_limit_pauses :
    (∀ new_games : List App,
      countPauses (_update_owned_games new_games).events = new_games.length / 50) ∧
    (_update_owned_games (List.replicate 120 { appid := 10, title := "g" })).events =
      List.replicate 50 (FwdEv.add { appid := 10, title := "g" }) ++ FwdEv.pause ::
        (List.replicate 50 (FwdEv.add { appid := 10, title := "g" }) ++ FwdEv.pause ::
          List.replicate 20 (FwdEv.add { appid := 10, title := "g" })) := by
  constructor
  · intro new_games
    cases new_games with
    | nil => rfl
    | cons g t =>
      have h := countPauses_forwardGo (g :: t) 0
      simpa [_update_owned_games] using h
  · decide

/-- C9 counterexample: a completion payload whose end URI matches none of
the four recognised forms makes `pass_login_credentials` fall through every
branch and return Python `None`. -/
theorem c9_route_counterexample :
    (pass_login_credentials sampleLoginState envNoAction
       { end_uri := "https://localhost/weird_step_done?x=1" }).1 = none := by
  rfl

/-- C9 amended: for payloads whose end URI matches one of the four
recognised completion forms the return value is never absent; an
unmatched end URI returns `None`. -/
theorem c9_route_amended (s : LoginState) (env : LoginEnv) (creds : Credentials)
    (h : strContains creds.end_uri "login_finished" = true ∨
         strContains creds.end_uri "two_factor_mobile_finished" = true ∨
         strContains creds.end_uri "two_factor_mail_finished" = true ∨
         strContains creds.end_uri "public_prompt_finished" = true) :
    (pass_login_credentials s env creds).1 ≠ none := by
  by_cases h1 : strContains creds.end_uri "login_finished" = true
  · simp [pass_login_credentials, h1]
  · by_cases h2 : strContains creds.end_uri "two_factor_mobile_finished" = true
    · simp [pass_login_credentials, h1, h2]
    · by_cases h3 : strContains creds.end_uri "two_factor_mail_finished" = true
      · simp [pass_login_credentials, h1, h2, h3]
      · by_cases h4 : strContains creds.end_uri "public_prompt_finished" = true
        · simp [pass_login_credentials, h1, h2, h3, h4]
        · rcases h with h | h | h | h <;> simp_all

/-- Witness for the amended C9 at a matching end URI. -/
theorem c9_route_amended_witness :
    (pass_login_credentials sampleLoginState envNoAction
       { end_uri := "login_finished", username := some "user", password := some "pw" }).1
      ≠ none := by
  exact c9_route_amended sampleLoginState envNoAction
    { end_uri := "login_finished", username := some "user", password := some "pw" }
    (Or.inl rfl)

/-- C1 counterexample: with no authenticated identity, the subscription
listing does not raise `AuthenticationRequired` — it proceeds to wait on
the catalog cache and returns the subscription list. -/
theorem c1_guard_counterexample :
    unauthFState.user_info_cache.steam_id = none ∧
    (get_subscriptions unauthFState sampleFeatureEnv).2 =
      [CacheOp.waitReadyGames, CacheOp.iterSharedGames] ∧
    (get_subscriptions unauthFState sampleFeatureEnv).1 =
      Except.ok
        [{ subscription_name := "Steam Family Sharing", owned := false,
           end_time := none, subscription_discovery := SubscriptionDiscovery.AUTOMATIC }] := by
  exact ⟨rfl, rfl, rfl⟩

/-- C1 amended: the owned-entitlements listing, the achievement, playtime
and library-settings preparation calls, and the friends listing each raise
`AuthenticationRequired` before performing any cache operation when the
identity's account id is unset; the subscription listing, the per-game
playtime lookup and the presence lookup perform no authentication check. -/
theorem c1_guard_amended (s : FState) (env : FeatureEnv) (game_ids : List String)
    (h : s.user_info_cache.steam_id = none) :
    get_owned_games s env = (Except.error GalaxyError.AuthenticationRequired, []) ∧
    prepare_achievements_context s env game_ids =
      (Except.error GalaxyError.AuthenticationRequired, []) ∧
    prepare_game_times_context s env =
      (Except.error GalaxyError.AuthenticationRequired, []) ∧
    prepare_game_library_settings_context s env =
      (Except.error GalaxyError.AuthenticationRequired, []) ∧
    get_friends s env = (Except.error GalaxyError.AuthenticationRequired, []) := by
  refine ⟨?_, ?_, ?_, ?_, ?_⟩ <;>
    simp [get_owned_games, prepare_achievements_context, prepare_game_times_context,
      prepare_game_library_settings_context, get_friends, h]

/-- Witness for the amended C1 at the concrete unauthenticated state. -/
theorem c1_guard_amended_witness :
    get_owned_games unauthFState sampleFeatureEnv =
      (Except.error GalaxyError.AuthenticationRequired, []) ∧
    get_friends unauthFState sampleFeatureEnv =
      (Except.error GalaxyError.AuthenticationRequired, []) := by
  have h := c1_guard_amended unauthFState sampleFeatureEnv [] rfl
  exact ⟨h.1, h.2.2.2.2⟩

end SteamNet
